import Mathlib

/-!
Shallow embedding of the scoring/conversion core of `rain_prediction_ml.py`:
the weighted rain-probability model (`RainPredictionModel.calculate_rain_score`,
`RainPredictionModel.predict`) and the PM2.5 converters
(`AQICigaretteConverter.pm25_to_cigarettes`, `AQICigaretteConverter.pm25_to_aqi`).

Numbers are modelled as rationals (`ℚ`).  Python's `round` builtin (banker's
rounding, ties to even) is modelled by `pyRound`; `round(x, 1)` is modelled by
`roundTo1`.  Optional dictionary keys are modelled by `Option ℚ` fields.
-/

/-- Python 3 `round(q)`: round to the nearest integer, ties to even. -/
def pyRound (q : ℚ) : ℤ :=
  let f : ℤ := ⌊q⌋
  let r : ℚ := q - f
  if r < 1/2 then f
  else if r > 1/2 then f + 1
  else if f % 2 = 0 then f else f + 1

/-- Python 3 `round(q, 1)`: round to one decimal place, ties to even. -/
def roundTo1 (q : ℚ) : ℚ := (pyRound (q * 10) : ℚ) / 10

/-- The confidence labels produced by `RainPredictionModel.predict`. -/
inductive Confidence where
  | Low
  | Medium
  | High
  deriving DecidableEq, Repr

/-- The `weather_params` dictionary taken by `calculate_rain_score`; a key that
may be missing from the dictionary is an `Option` field. -/
structure WeatherParams where
  chance_of_rain : Option ℚ
  humidity : Option ℚ
  precipitation : Option ℚ
  cloud_cover : Option ℚ
  pressure : Option ℚ

/-- `self.weights['chance_of_rain']` = 0.35. -/
def weight_chance_of_rain : ℚ := 35/100

/-- `self.weights['humidity']` = 0.20. -/
def weight_humidity : ℚ := 20/100

/-- `self.weights['precipitation']` = 0.25. -/
def weight_precipitation : ℚ := 25/100

/-- `self.weights['cloud_cover']` = 0.10. -/
def weight_cloud_cover : ℚ := 10/100

/-- `self.weights['pressure']` = 0.10. -/
def weight_pressure : ℚ := 10/100

/-- The humidity sub-score branch of `calculate_rain_score`. -/
def humidity_score (humidity : ℚ) : ℚ :=
  if humidity > 80 then 100
  else if humidity > 70 then 75
  else if humidity > 60 then 50
  else 25

/-- The precipitation sub-score of `calculate_rain_score`: `min(100, precip * 20)`. -/
def precip_score (precip : ℚ) : ℚ := min 100 (precip * 20)

/-- The cloud-cover sub-score branch of `calculate_rain_score`. -/
def cloud_score (cloud : ℚ) : ℚ :=
  if cloud > 75 then 100
  else if cloud > 50 then 60
  else 20

/-- The pressure sub-score branch of `calculate_rain_score`. -/
def pressure_score (pressure : ℚ) : ℚ :=
  if pressure < 1000 then 100
  else if pressure < 1010 then 70
  else if pressure < 1015 then 40
  else 10

/-- `RainPredictionModel.calculate_rain_score`: each present key appends its
weighted sub-score to `scores`; the total is `min(100, max(0, sum(scores)))`. -/
def calculate_rain_score (weather_params : WeatherParams) : ℚ :=
  let scores : List ℚ :=
    (match weather_params.chance_of_rain with
      | some c => [c * weight_chance_of_rain]
      | none => []) ++
    (match weather_params.humidity with
      | some h => [humidity_score h * weight_humidity]
      | none => []) ++
    (match weather_params.precipitation with
      | some p => [precip_score p * weight_precipitation]
      | none => []) ++
    (match weather_params.cloud_cover with
      | some c => [cloud_score c * weight_cloud_cover]
      | none => []) ++
    (match weather_params.pressure with
      | some p => [pressure_score p * weight_pressure]
      | none => [])
  min 100 (max 0 scores.sum)

/-- The `day_data` dictionary taken by `RainPredictionModel.predict`; a key that
may be missing from the dictionary is an `Option` field. -/
structure DayData where
  daily_chance_of_rain : Option ℚ
  avghumidity : Option ℚ
  totalprecip_mm : Option ℚ
  cloud : Option ℚ
  pressure_mb : Option ℚ

/-- The `params` dictionary built at the top of `predict`:
`day_data.get(key, default)` for each of the five keys. -/
def paramsOf (day_data : DayData) : WeatherParams :=
  { chance_of_rain := some (day_data.daily_chance_of_rain.getD 0)
    humidity := some (day_data.avghumidity.getD 50)
    precipitation := some (day_data.totalprecip_mm.getD 0)
    cloud_cover := some (day_data.cloud.getD 50)
    pressure := some (day_data.pressure_mb.getD 1013) }

/-- The confidence branch of `predict`, as a function of `rain_probability`. -/
def confidenceOf (rain_probability : ℚ) : Confidence × ℕ :=
  if rain_probability ≥ 80 ∨ rain_probability ≤ 20 then (Confidence.High, 90)
  else if rain_probability ≥ 65 ∨ rain_probability ≤ 35 then (Confidence.Medium, 70)
  else (Confidence.Low, 50)

/-- The tuple returned by `RainPredictionModel.predict`:
`(will_rain, confidence, round(rain_probability, 1), confidence_percent)`. -/
structure RainPrediction where
  will_rain : Bool
  confidence : Confidence
  probability : ℚ
  confidence_percent : ℕ
  deriving DecidableEq, Repr

/-- `RainPredictionModel.predict`. -/
def predict (day_data : DayData) : RainPrediction :=
  let rain_probability := calculate_rain_score (paramsOf day_data)
  { will_rain := decide (rain_probability ≥ 50)
    confidence := (confidenceOf rain_probability).1
    probability := roundTo1 rain_probability
    confidence_percent := (confidenceOf rain_probability).2 }

/-- `AQICigaretteConverter.pm25_to_cigarettes`; `None` is `none`. -/
def pm25_to_cigarettes (pm25 : Option ℚ) : ℚ :=
  match pm25 with
  | none => 0
  | some x => if x = 0 then 0 else roundTo1 (x / 22)

/-- The EPA PM2.5 breakpoint table `breakpoints` of `pm25_to_aqi`:
`(pm_low, pm_high, aqi_low, aqi_high)`. -/
def breakpoints : List (ℚ × ℚ × ℤ × ℤ) :=
  [(0.0, 12.0, 0, 50),
   (12.1, 35.4, 51, 100),
   (35.5, 55.4, 101, 150),
   (55.5, 150.4, 151, 200),
   (150.5, 250.4, 201, 300),
   (250.5, 500.4, 301, 500)]

/-- The linear interpolation formula in the loop body of `pm25_to_aqi`. -/
def interp (pm_low pm_high : ℚ) (aqi_low aqi_high : ℤ) (pm25 : ℚ) : ℚ :=
  (((aqi_high : ℚ) - (aqi_low : ℚ)) / (pm_high - pm_low)) * (pm25 - pm_low) + (aqi_low : ℚ)

/-- The `for` loop of `pm25_to_aqi`: return on the first bracket containing
`pm25`, else fall through to `return 500`. -/
def findBracket : List (ℚ × ℚ × ℤ × ℤ) → ℚ → ℤ
  | [], _ => 500
  | (pm_low, pm_high, aqi_low, aqi_high) :: rest, pm25 =>
      if pm_low ≤ pm25 ∧ pm25 ≤ pm_high then
        pyRound (interp pm_low pm_high aqi_low aqi_high pm25)
      else findBracket rest pm25

/-- `AQICigaretteConverter.pm25_to_aqi`; `None` is `none`. -/
def pm25_to_aqi (pm25 : Option ℚ) : ℤ :=
  match pm25 with
  | none => 0
  | some x => if x < 0 then 0 else findBracket breakpoints x

/-- The weighted sum described by the specification, section 4.1: over the
present fields, weight times per-indicator sub-score, with the spec's weights
(chance_of_rain 0.35, humidity 0.20, precipitation 0.25, cloud_cover 0.10,
pressure 0.10) and the spec's sub-scores (chance_of_rain verbatim; humidity
greater than 80 gives 100, greater than 70 gives 75, greater than 60 gives 50,
else 25; precipitation min(100, mm times 20); cloud_cover greater than 75 gives
100, greater than 50 gives 60, else 20; pressure below 1000 gives 100, below
1010 gives 70, below 1015 gives 40, else 10). -/
def specWeightedSum (sample : WeatherParams) : ℚ :=
  (match sample.chance_of_rain with
    | some c => (35/100) * c
    | none => 0) +
  (match sample.humidity with
    | some h => (20/100) *
        (if h > 80 then 100 else if h > 70 then 75 else if h > 60 then 50 else 25)
    | none => 0) +
  (match sample.precipitation with
    | some m => (25/100) * min 100 (m * 20)
    | none => 0) +
  (match sample.cloud_cover with
    | some c => (10/100) *
        (if c > 75 then 100 else if c > 50 then 60 else 20)
    | none => 0) +
  (match sample.pressure with
    | some p => (10/100) *
        (if p < 1000 then 100 else if p < 1010 then 70 else if p < 1015 then 40 else 10)
    | none => 0)

/-- The union of the breakpoint brackets of `breakpoints` together with the
region above the last bracket: the PM2.5 inputs that are not in a gap of the
table. -/
def inTable (x : ℚ) : Prop :=
  (0 ≤ x ∧ x ≤ 12) ∨ (12.1 ≤ x ∧ x ≤ 35.4) ∨ (35.5 ≤ x ∧ x ≤ 55.4) ∨
  (55.5 ≤ x ∧ x ≤ 150.4) ∨ (150.5 ≤ x ∧ x ≤ 250.4) ∨ (250.5 ≤ x ∧ x ≤ 500.4) ∨
  500.4 < x

/-! Basic facts about `pyRound`. -/

theorem pyRound_intCast (n : ℤ) : pyRound (n : ℚ) = n := by
  norm_num [pyRound]

theorem floor_le_pyRound (q : ℚ) : ⌊q⌋ ≤ pyRound q := by
  unfold pyRound
  dsimp only
  split_ifs <;> omega

theorem pyRound_le_floor_add_one (q : ℚ) : pyRound q ≤ ⌊q⌋ + 1 := by
  unfold pyRound
  dsimp only
  split_ifs <;> omega

theorem pyRound_mono {a b : ℚ} (h : a ≤ b) : pyRound a ≤ pyRound b := by
  rcases lt_or_le ⌊a⌋ ⌊b⌋ with hf | hf
  · have h1 := pyRound_le_floor_add_one a
    have h2 := floor_le_pyRound b
    omega
  · have hfe : ⌊a⌋ = ⌊b⌋ := le_antisymm (Int.floor_le_floor h) hf
    have hr : a - (⌊a⌋ : ℚ) ≤ b - (⌊b⌋ : ℚ) := by
      rw [hfe]; linarith
    unfold pyRound
    dsimp only
    split_ifs <;> first | omega | (exfalso; linarith)

theorem roundTo1_ge_fifty {p : ℚ} (h : 50 ≤ p) : 50 ≤ roundTo1 p := by
  have h1 : pyRound ((500 : ℤ) : ℚ) ≤ pyRound (p * 10) := by
    apply pyRound_mono
    push_cast
    linarith
  rw [pyRound_intCast] at h1
  have h2 : (500 : ℚ) ≤ (pyRound (p * 10) : ℚ) := by exact_mod_cast h1
  unfold roundTo1
  linarith

example : calculate_rain_score ⟨none, none, some 5, none, none⟩ = 25 := by
  norm_num [calculate_rain_score, precip_score, weight_precipitation]

example : calculate_rain_score ⟨none, some 85, none, none, none⟩ = 20 := by
  norm_num [calculate_rain_score, humidity_score, weight_humidity]

example : pm25_to_aqi (some (35.4 : ℚ)) = 100 := by
  norm_num [pm25_to_aqi, breakpoints, findBracket, interp, pyRound]

example : pm25_to_aqi (some 600) = 500 := by
  norm_num [pm25_to_aqi, breakpoints, findBracket, interp, pyRound]

example : pm25_to_cigarettes (some 22) = 1 := by
  norm_num [pm25_to_cigarettes, roundTo1, pyRound]

/-! Facts about the bracket interpolation of `pm25_to_aqi`. -/

theorem interp_bounds (pm_low pm_high : ℚ) (aqi_low aqi_high : ℤ)
    (hlt : pm_low < pm_high) (hle : aqi_low ≤ aqi_high)
    {x : ℚ} (h1 : pm_low ≤ x) (h2 : x ≤ pm_high) :
    (aqi_low : ℚ) ≤ interp pm_low pm_high aqi_low aqi_high x ∧
    interp pm_low pm_high aqi_low aqi_high x ≤ (aqi_high : ℚ) := by
  unfold interp
  have hd : (0 : ℚ) < pm_high - pm_low := by linarith
  have hn : (0 : ℚ) ≤ (aqi_high : ℚ) - (aqi_low : ℚ) := by
    have : (aqi_low : ℚ) ≤ (aqi_high : ℚ) := by exact_mod_cast hle
    linarith
  have hs : (0 : ℚ) ≤ ((aqi_high : ℚ) - (aqi_low : ℚ)) / (pm_high - pm_low) :=
    div_nonneg hn (le_of_lt hd)
  constructor
  · have : (0 : ℚ) ≤ ((aqi_high : ℚ) - (aqi_low : ℚ)) / (pm_high - pm_low) * (x - pm_low) :=
      mul_nonneg hs (by linarith)
    linarith
  · have hstep : ((aqi_high : ℚ) - (aqi_low : ℚ)) / (pm_high - pm_low) * (x - pm_low) ≤
        ((aqi_high : ℚ) - (aqi_low : ℚ)) / (pm_high - pm_low) * (pm_high - pm_low) :=
      mul_le_mul_of_nonneg_left (by linarith) hs
    have hcancel : ((aqi_high : ℚ) - (aqi_low : ℚ)) / (pm_high - pm_low) * (pm_high - pm_low) =
        (aqi_high : ℚ) - (aqi_low : ℚ) :=
      div_mul_cancel₀ _ (ne_of_gt hd)
    rw [hcancel] at hstep
    linarith

theorem pyRound_interp_bounds (pm_low pm_high : ℚ) (aqi_low aqi_high : ℤ)
    (hlt : pm_low < pm_high) (hle : aqi_low ≤ aqi_high)
    {x : ℚ} (h1 : pm_low ≤ x) (h2 : x ≤ pm_high) :
    aqi_low ≤ pyRound (interp pm_low pm_high aqi_low aqi_high x) ∧
    pyRound (interp pm_low pm_high aqi_low aqi_high x) ≤ aqi_high := by
  obtain ⟨ha, hb⟩ := interp_bounds pm_low pm_high aqi_low aqi_high hlt hle h1 h2
  constructor
  · have := pyRound_mono ha
    rwa [pyRound_intCast] at this
  · have := pyRound_mono hb
    rwa [pyRound_intCast] at this

theorem interp_mono (pm_low pm_high : ℚ) (aqi_low aqi_high : ℤ)
    (hlt : pm_low < pm_high) (hle : aqi_low ≤ aqi_high)
    {x y : ℚ} (hxy : x ≤ y) :
    interp pm_low pm_high aqi_low aqi_high x ≤ interp pm_low pm_high aqi_low aqi_high y := by
  unfold interp
  have hd : (0 : ℚ) < pm_high - pm_low := by linarith
  have hn : (0 : ℚ) ≤ (aqi_high : ℚ) - (aqi_low : ℚ) := by
    have : (aqi_low : ℚ) ≤ (aqi_high : ℚ) := by exact_mod_cast hle
    linarith
  have hs : (0 : ℚ) ≤ ((aqi_high : ℚ) - (aqi_low : ℚ)) / (pm_high - pm_low) :=
    div_nonneg hn (le_of_lt hd)
  have := mul_le_mul_of_nonneg_left (by linarith : x - pm_low ≤ y - pm_low) hs
  linarith

theorem aqi_bracket_eval (pm_low pm_high : ℚ) (aqi_low aqi_high : ℤ)
    (hmem : (pm_low, pm_high, aqi_low, aqi_high) ∈ breakpoints)
    {x : ℚ} (h1 : pm_low ≤ x) (h2 : x ≤ pm_high) :
    pm25_to_aqi (some x) = pyRound (interp pm_low pm_high aqi_low aqi_high x) := by
  simp only [breakpoints, List.mem_cons, List.not_mem_nil, or_false, Prod.mk.injEq] at hmem
  rcases hmem with ⟨e1, e2, e3, e4⟩ | ⟨e1, e2, e3, e4⟩ | ⟨e1, e2, e3, e4⟩ |
    ⟨e1, e2, e3, e4⟩ | ⟨e1, e2, e3, e4⟩ | ⟨e1, e2, e3, e4⟩ <;>
    subst e1 <;> subst e2 <;> subst e3 <;> subst e4
  · have hx0 : ¬ x < 0 := by push_neg; linarith
    simp only [pm25_to_aqi, breakpoints, findBracket, if_neg hx0, if_pos (And.intro h1 h2)]
  · have hx0 : ¬ x < 0 := by push_neg; linarith
    have c1 : ¬((0.0 : ℚ) ≤ x ∧ x ≤ 12.0) := by rintro ⟨h3, h4⟩; linarith
    simp only [pm25_to_aqi, breakpoints, findBracket, if_neg hx0, if_neg c1,
      if_pos (And.intro h1 h2)]
  · have hx0 : ¬ x < 0 := by push_neg; linarith
    have c1 : ¬((0.0 : ℚ) ≤ x ∧ x ≤ 12.0) := by rintro ⟨h3, h4⟩; linarith
    have c2 : ¬((12.1 : ℚ) ≤ x ∧ x ≤ 35.4) := by rintro ⟨h3, h4⟩; linarith
    simp only [pm25_to_aqi, breakpoints, findBracket, if_neg hx0, if_neg c1, if_neg c2,
      if_pos (And.intro h1 h2)]
  · have hx0 : ¬ x < 0 := by push_neg; linarith
    have c1 : ¬((0.0 : ℚ) ≤ x ∧ x ≤ 12.0) := by rintro ⟨h3, h4⟩; linarith
    have c2 : ¬((12.1 : ℚ) ≤ x ∧ x ≤ 35.4) := by rintro ⟨h3, h4⟩; linarith
    have c3 : ¬((35.5 : ℚ) ≤ x ∧ x ≤ 55.4) := by rintro ⟨h3, h4⟩; linarith
    simp only [pm25_to_aqi, breakpoints, findBracket, if_neg hx0, if_neg c1, if_neg c2,
      if_neg c3, if_pos (And.intro h1 h2)]
  · have hx0 : ¬ x < 0 := by push_neg; linarith
    have c1 : ¬((0.0 : ℚ) ≤ x ∧ x ≤ 12.0) := by rintro ⟨h3, h4⟩; linarith
    have c2 : ¬((12.1 : ℚ) ≤ x ∧ x ≤ 35.4) := by rintro ⟨h3, h4⟩; linarith
    have c3 : ¬((35.5 : ℚ) ≤ x ∧ x ≤ 55.4) := by rintro ⟨h3, h4⟩; linarith
    have c4 : ¬((55.5 : ℚ) ≤ x ∧ x ≤ 150.4) := by rintro ⟨h3, h4⟩; linarith
    simp only [pm25_to_aqi, breakpoints, findBracket, if_neg hx0, if_neg c1, if_neg c2,
      if_neg c3, if_neg c4, if_pos (And.intro h1 h2)]
  · have hx0 : ¬ x < 0 := by push_neg; linarith
    have c1 : ¬((0.0 : ℚ) ≤ x ∧ x ≤ 12.0) := by rintro ⟨h3, h4⟩; linarith
    have c2 : ¬((12.1 : ℚ) ≤ x ∧ x ≤ 35.4) := by rintro ⟨h3, h4⟩; linarith
    have c3 : ¬((35.5 : ℚ) ≤ x ∧ x ≤ 55.4) := by rintro ⟨h3, h4⟩; linarith
    have c4 : ¬((55.5 : ℚ) ≤ x ∧ x ≤ 150.4) := by rintro ⟨h3, h4⟩; linarith
    have c5 : ¬((150.5 : ℚ) ≤ x ∧ x ≤ 250.4) := by rintro ⟨h3, h4⟩; linarith
    simp only [pm25_to_aqi, breakpoints, findBracket, if_neg hx0, if_neg c1, if_neg c2,
      if_neg c3, if_neg c4, if_neg c5, if_pos (And.intro h1 h2)]

theorem aqi_tail {x : ℚ} (hx : (500.4 : ℚ) < x) : pm25_to_aqi (some x) = 500 := by
  have hx0 : ¬ x < 0 := by push_neg; linarith
  have c1 : ¬((0.0 : ℚ) ≤ x ∧ x ≤ 12.0) := by rintro ⟨h3, h4⟩; linarith
  have c2 : ¬((12.1 : ℚ) ≤ x ∧ x ≤ 35.4) := by rintro ⟨h3, h4⟩; linarith
  have c3 : ¬((35.5 : ℚ) ≤ x ∧ x ≤ 55.4) := by rintro ⟨h3, h4⟩; linarith
  have c4 : ¬((55.5 : ℚ) ≤ x ∧ x ≤ 150.4) := by rintro ⟨h3, h4⟩; linarith
  have c5 : ¬((150.5 : ℚ) ≤ x ∧ x ≤ 250.4) := by rintro ⟨h3, h4⟩; linarith
  have c6 : ¬((250.5 : ℚ) ≤ x ∧ x ≤ 500.4) := by rintro ⟨h3, h4⟩; linarith
  simp only [pm25_to_aqi, breakpoints, findBracket, if_neg hx0, if_neg c1, if_neg c2,
    if_neg c3, if_neg c4, if_neg c5, if_neg c6]

/-- Claim C3: `pm25_to_aqi` returns 0 when pm25 is absent or negative; on a
breakpoint bracket `[pm_low, pm_high]` of the table it returns the linear
interpolation `((aqi_high - aqi_low)/(pm_high - pm_low)) * (pm25 - pm_low) +
aqi_low` rounded to the nearest integer (Python banker's rounding); above 500.4
it returns 500; pm25 = 35.4 gives exactly 100 and pm25 = 600 gives 500. -/
theorem claim_C3 :
    pm25_to_aqi none = 0 ∧
    (∀ x : ℚ, x < 0 → pm25_to_aqi (some x) = 0) ∧
    (∀ pm_low pm_high : ℚ, ∀ aqi_low aqi_high : ℤ,
      (pm_low, pm_high, aqi_low, aqi_high) ∈ breakpoints →
      ∀ x : ℚ, pm_low ≤ x → x ≤ pm_high →
        pm25_to_aqi (some x) = pyRound (interp pm_low pm_high aqi_low aqi_high x)) ∧
    (∀ x : ℚ, (500.4 : ℚ) < x → pm25_to_aqi (some x) = 500) ∧
    pm25_to_aqi (some 35.4) = 100 ∧
    pm25_to_aqi (some 600) = 500 := by
  refine ⟨rfl, ?_, ?_, ?_, ?_, ?_⟩
  · intro x hx
    simp [pm25_to_aqi, if_pos hx]
  · intro pm_low pm_high aqi_low aqi_high hmem x h1 h2
    exact aqi_bracket_eval pm_low pm_high aqi_low aqi_high hmem h1 h2
  · intro x hx
    exact aqi_tail hx
  · norm_num [pm25_to_aqi, breakpoints, findBracket, interp, pyRound]
  · norm_num [pm25_to_aqi, breakpoints, findBracket, interp, pyRound]

/-- Witness for C3 at concrete inputs: pm25 = 10 lies in the first bracket,
pm25 = -1 is negative, pm25 = 501 is above 500.4. -/
theorem claim_C3_witness :
    pm25_to_aqi (some 10) = pyRound (interp 0.0 12.0 0 50 10) ∧
    pm25_to_aqi (some (-1)) = 0 ∧
    pm25_to_aqi (some 501) = 500 :=
  ⟨claim_C3.2.2.1 0.0 12.0 0 50 (by simp [breakpoints]) 10 (by norm_num) (by norm_num),
   claim_C3.2.1 (-1) (by norm_num),
   claim_C3.2.2.2.1 501 (by norm_num)⟩

/-- Claim C9: on every input strictly inside a gap between consecutive brackets
of the breakpoint table, `pm25_to_aqi` matches no bracket and returns the
fallback value 500. -/
theorem claim_C9 : ∀ x : ℚ,
    (12 < x ∧ x < 12.1) ∨ (35.4 < x ∧ x < 35.5) ∨ (55.4 < x ∧ x < 55.5) ∨
    (150.4 < x ∧ x < 150.5) ∨ (250.4 < x ∧ x < 250.5) →
    pm25_to_aqi (some x) = 500 := by
  intro x hx
  rcases hx with ⟨h1, h2⟩ | ⟨h1, h2⟩ | ⟨h1, h2⟩ | ⟨h1, h2⟩ | ⟨h1, h2⟩ <;>
  · have hx0 : ¬ x < 0 := by push_neg; linarith
    have c1 : ¬((0.0 : ℚ) ≤ x ∧ x ≤ 12.0) := by rintro ⟨h3, h4⟩; linarith
    have c2 : ¬((12.1 : ℚ) ≤ x ∧ x ≤ 35.4) := by rintro ⟨h3, h4⟩; linarith
    have c3 : ¬((35.5 : ℚ) ≤ x ∧ x ≤ 55.4) := by rintro ⟨h3, h4⟩; linarith
    have c4 : ¬((55.5 : ℚ) ≤ x ∧ x ≤ 150.4) := by rintro ⟨h3, h4⟩; linarith
    have c5 : ¬((150.5 : ℚ) ≤ x ∧ x ≤ 250.4) := by rintro ⟨h3, h4⟩; linarith
    have c6 : ¬((250.5 : ℚ) ≤ x ∧ x ≤ 500.4) := by rintro ⟨h3, h4⟩; linarith
    simp only [pm25_to_aqi, breakpoints, findBracket, if_neg hx0, if_neg c1, if_neg c2,
      if_neg c3, if_neg c4, if_neg c5, if_neg c6]

/-- Witness for C9: pm25 = 12.05 lies inside the first gap and maps to 500. -/
theorem claim_C9_witness : pm25_to_aqi (some 12.05) = 500 :=
  claim_C9 12.05 (Or.inl ⟨by norm_num, by norm_num⟩)

theorem aqi_bracket_bounds (pm_low pm_high : ℚ) (aqi_low aqi_high : ℤ)
    (hmem : (pm_low, pm_high, aqi_low, aqi_high) ∈ breakpoints)
    (hlt : pm_low < pm_high) (hle : aqi_low ≤ aqi_high)
    (x : ℚ) (h1 : pm_low ≤ x) (h2 : x ≤ pm_high) :
    aqi_low ≤ pm25_to_aqi (some x) ∧ pm25_to_aqi (some x) ≤ aqi_high := by
  rw [aqi_bracket_eval pm_low pm_high aqi_low aqi_high hmem h1 h2]
  exact pyRound_interp_bounds pm_low pm_high aqi_low aqi_high hlt hle h1 h2

theorem aqi_bracket_mono (pm_low pm_high : ℚ) (aqi_low aqi_high : ℤ)
    (hmem : (pm_low, pm_high, aqi_low, aqi_high) ∈ breakpoints)
    (hlt : pm_low < pm_high) (hle : aqi_low ≤ aqi_high)
    (x y : ℚ) (hx1 : pm_low ≤ x) (hx2 : x ≤ pm_high)
    (hy1 : pm_low ≤ y) (hy2 : y ≤ pm_high) (hxy : x ≤ y) :
    pm25_to_aqi (some x) ≤ pm25_to_aqi (some y) := by
  rw [aqi_bracket_eval pm_low pm_high aqi_low aqi_high hmem hx1 hx2,
    aqi_bracket_eval pm_low pm_high aqi_low aqi_high hmem hy1 hy2]
  exact pyRound_mono (interp_mono pm_low pm_high aqi_low aqi_high hlt hle hxy)

set_option maxHeartbeats 3200000 in
/-- Claim C5 (amended): `pm25_to_aqi` is monotonically non-decreasing on the
inputs covered by the breakpoint table (within a bracket, across bracket
boundaries, and into the above-500.4 fallback); on the gaps between brackets
the function returns the fallback 500 and monotonicity fails. -/
theorem claim_C5_amended : ∀ a b : ℚ, inTable a → inTable b → a ≤ b →
    pm25_to_aqi (some a) ≤ pm25_to_aqi (some b) := by
  intro a b ha hb hab
  have m1 : ((0 : ℚ), (12 : ℚ), (0 : ℤ), (50 : ℤ)) ∈ breakpoints := by
    norm_num [breakpoints]
  have m2 : ((12.1 : ℚ), (35.4 : ℚ), (51 : ℤ), (100 : ℤ)) ∈ breakpoints := by
    norm_num [breakpoints]
  have m3 : ((35.5 : ℚ), (55.4 : ℚ), (101 : ℤ), (150 : ℤ)) ∈ breakpoints := by
    norm_num [breakpoints]
  have m4 : ((55.5 : ℚ), (150.4 : ℚ), (151 : ℤ), (200 : ℤ)) ∈ breakpoints := by
    norm_num [breakpoints]
  have m5 : ((150.5 : ℚ), (250.4 : ℚ), (201 : ℤ), (300 : ℤ)) ∈ breakpoints := by
    norm_num [breakpoints]
  have m6 : ((250.5 : ℚ), (500.4 : ℚ), (301 : ℤ), (500 : ℤ)) ∈ breakpoints := by
    norm_num [breakpoints]
  have K1 := aqi_bracket_bounds 0 12 0 50 m1 (by norm_num) (by norm_num)
  have K2 := aqi_bracket_bounds 12.1 35.4 51 100 m2 (by norm_num) (by norm_num)
  have K3 := aqi_bracket_bounds 35.5 55.4 101 150 m3 (by norm_num) (by norm_num)
  have K4 := aqi_bracket_bounds 55.5 150.4 151 200 m4 (by norm_num) (by norm_num)
  have K5 := aqi_bracket_bounds 150.5 250.4 201 300 m5 (by norm_num) (by norm_num)
  have K6 := aqi_bracket_bounds 250.5 500.4 301 500 m6 (by norm_num) (by norm_num)
  have M1 := aqi_bracket_mono 0 12 0 50 m1 (by norm_num) (by norm_num)
  have M2 := aqi_bracket_mono 12.1 35.4 51 100 m2 (by norm_num) (by norm_num)
  have M3 := aqi_bracket_mono 35.5 55.4 101 150 m3 (by norm_num) (by norm_num)
  have M4 := aqi_bracket_mono 55.5 150.4 151 200 m4 (by norm_num) (by norm_num)
  have M5 := aqi_bracket_mono 150.5 250.4 201 300 m5 (by norm_num) (by norm_num)
  have M6 := aqi_bracket_mono 250.5 500.4 301 500 m6 (by norm_num) (by norm_num)
  rcases ha with ⟨ha1, ha2⟩ | ⟨ha1, ha2⟩ | ⟨ha1, ha2⟩ | ⟨ha1, ha2⟩ | ⟨ha1, ha2⟩ | ⟨ha1, ha2⟩ | ha1 <;>
    rcases hb with ⟨hb1, hb2⟩ | ⟨hb1, hb2⟩ | ⟨hb1, hb2⟩ | ⟨hb1, hb2⟩ | ⟨hb1, hb2⟩ | ⟨hb1, hb2⟩ | hb1 <;>
  first
    | exact M1 a b ha1 ha2 hb1 hb2 hab
    | exact M2 a b ha1 ha2 hb1 hb2 hab
    | exact M3 a b ha1 ha2 hb1 hb2 hab
    | exact M4 a b ha1 ha2 hb1 hb2 hab
    | exact M5 a b ha1 ha2 hb1 hb2 hab
    | exact M6 a b ha1 ha2 hb1 hb2 hab
    | (rw [aqi_tail ha1, aqi_tail hb1])
    | (have A := (K1 a ha1 ha2).2; have B := (K2 b hb1 hb2).1; omega)
    | (have A := (K1 a ha1 ha2).2; have B := (K3 b hb1 hb2).1; omega)
    | (have A := (K1 a ha1 ha2).2; have B := (K4 b hb1 hb2).1; omega)
    | (have A := (K1 a ha1 ha2).2; have B := (K5 b hb1 hb2).1; omega)
    | (have A := (K1 a ha1 ha2).2; have B := (K6 b hb1 hb2).1; omega)
    | (have A := (K2 a ha1 ha2).2; have B := (K3 b hb1 hb2).1; omega)
    | (have A := (K2 a ha1 ha2).2; have B := (K4 b hb1 hb2).1; omega)
    | (have A := (K2 a ha1 ha2).2; have B := (K5 b hb1 hb2).1; omega)
    | (have A := (K2 a ha1 ha2).2; have B := (K6 b hb1 hb2).1; omega)
    | (have A := (K3 a ha1 ha2).2; have B := (K4 b hb1 hb2).1; omega)
    | (have A := (K3 a ha1 ha2).2; have B := (K5 b hb1 hb2).1; omega)
    | (have A := (K3 a ha1 ha2).2; have B := (K6 b hb1 hb2).1; omega)
    | (have A := (K4 a ha1 ha2).2; have B := (K5 b hb1 hb2).1; omega)
    | (have A := (K4 a ha1 ha2).2; have B := (K6 b hb1 hb2).1; omega)
    | (have A := (K5 a ha1 ha2).2; have B := (K6 b hb1 hb2).1; omega)
    | (have A := (K1 a ha1 ha2).2; have B := le_of_eq (aqi_tail hb1).symm; omega)
    | (have A := (K2 a ha1 ha2).2; have B := le_of_eq (aqi_tail hb1).symm; omega)
    | (have A := (K3 a ha1 ha2).2; have B := le_of_eq (aqi_tail hb1).symm; omega)
    | (have A := (K4 a ha1 ha2).2; have B := le_of_eq (aqi_tail hb1).symm; omega)
    | (have A := (K5 a ha1 ha2).2; have B := le_of_eq (aqi_tail hb1).symm; omega)
    | (have A := (K6 a ha1 ha2).2; have B := le_of_eq (aqi_tail hb1).symm; omega)
    | (exfalso; linarith)

/-- Counterexample for claim C5 as stated: 12.05 and 12.1 are non-negative with
12.05 ≤ 12.1, but `pm25_to_aqi` maps 12.05 (inside the 12.0 to 12.1 gap) to 500
and 12.1 to 51, a decrease. -/
theorem claim_C5_counterexample :
    (0 : ℚ) ≤ 12.05 ∧ (12.05 : ℚ) ≤ 12.1 ∧
    pm25_to_aqi (some 12.05) = 500 ∧ pm25_to_aqi (some 12.1) = 51 ∧
    ¬ pm25_to_aqi (some 12.05) ≤ pm25_to_aqi (some 12.1) := by
  refine ⟨by norm_num, by norm_num, ?_, ?_, ?_⟩ <;>
    norm_num [pm25_to_aqi, breakpoints, findBracket, interp, pyRound]

/-- Witness for the amended C5 at concrete inputs 1 and 13 (first and second
bracket). -/
theorem claim_C5_witness :
    inTable 1 ∧ inTable 13 ∧ (1 : ℚ) ≤ 13 ∧
    pm25_to_aqi (some 1) ≤ pm25_to_aqi (some 13) :=
  ⟨by norm_num [inTable], by norm_num [inTable], by norm_num,
   claim_C5_amended 1 13 (by norm_num [inTable]) (by norm_num [inTable]) (by norm_num)⟩

/-- Claim C1: for every weather-parameter map whose present fields lie in the
stated ranges, `calculate_rain_score` returns the clamp to [0, 100] of the
weighted sum of the section 4.1 sub-scores over the present fields
(`specWeightedSum`); in particular the result is always in [0, 100]. -/
theorem claim_C1 (sample : WeatherParams)
    (hc : ∀ c, sample.chance_of_rain = some c → 0 ≤ c ∧ c ≤ 100)
    (hh : ∀ h, sample.humidity = some h → 0 ≤ h ∧ h ≤ 100)
    (hp : ∀ m, sample.precipitation = some m → 0 ≤ m)
    (hcl : ∀ c, sample.cloud_cover = some c → 0 ≤ c ∧ c ≤ 100) :
    calculate_rain_score sample = min 100 (max 0 (specWeightedSum sample)) ∧
    0 ≤ calculate_rain_score sample ∧ calculate_rain_score sample ≤ 100 := by
  refine ⟨?_, ?_, ?_⟩
  · rcases sample with ⟨c, h, p, cl, pr⟩
    unfold calculate_rain_score specWeightedSum
    cases c <;> cases h <;> cases p <;> cases cl <;> cases pr <;>
      dsimp only <;>
      simp only [List.cons_append, List.nil_append, List.append_nil, List.sum_cons,
        List.sum_nil, add_zero, zero_add, humidity_score, precip_score, cloud_score,
        pressure_score, weight_chance_of_rain, weight_humidity, weight_precipitation,
        weight_cloud_cover, weight_pressure] <;>
      exact congrArg (fun t => min 100 (max 0 t)) (by ring)
  · unfold calculate_rain_score
    exact le_min (by norm_num) (le_max_left 0 _)
  · unfold calculate_rain_score
    exact min_le_left _ _

/-- Witness for C1 at a concrete in-range sample with all fields present. -/
theorem claim_C1_witness :
    calculate_rain_score ⟨some 50, some 85, some 2, some 80, some 1005⟩ =
      min 100 (max 0 (specWeightedSum ⟨some 50, some 85, some 2, some 80, some 1005⟩)) ∧
    0 ≤ calculate_rain_score ⟨some 50, some 85, some 2, some 80, some 1005⟩ ∧
    calculate_rain_score ⟨some 50, some 85, some 2, some 80, some 1005⟩ ≤ 100 :=
  claim_C1 ⟨some 50, some 85, some 2, some 80, some 1005⟩
    (by intro c hc; cases hc; norm_num)
    (by intro h hh; cases hh; norm_num)
    (by intro m hm; cases hm; norm_num)
    (by intro c hc; cases hc; norm_num)

/-- Claim C2: `predict` assigns confidence High with 90 if the scorer's
probability p satisfies p ≥ 80 or p ≤ 20; otherwise Medium with 70 if p ≥ 65 or
p ≤ 35; otherwise Low with 50 (35 < p < 65); the High test is evaluated first.
A sample whose only contribution is precipitation 5 mm scores 25.0, giving
Medium(70); one whose only contribution is humidity 85 scores 20.0, giving
High(90). -/
theorem claim_C2 :
    (∀ d : DayData,
      (predict d).confidence = (confidenceOf (calculate_rain_score (paramsOf d))).1 ∧
      (predict d).confidence_percent = (confidenceOf (calculate_rain_score (paramsOf d))).2) ∧
    (∀ p : ℚ, 80 ≤ p ∨ p ≤ 20 → confidenceOf p = (Confidence.High, 90)) ∧
    (∀ p : ℚ, ¬(80 ≤ p ∨ p ≤ 20) → 65 ≤ p ∨ p ≤ 35 →
      confidenceOf p = (Confidence.Medium, 70)) ∧
    (∀ p : ℚ, 35 < p → p < 65 → confidenceOf p = (Confidence.Low, 50)) ∧
    (calculate_rain_score ⟨none, none, some 5, none, none⟩ = 25 ∧
      confidenceOf 25 = (Confidence.Medium, 70)) ∧
    (calculate_rain_score ⟨none, some 85, none, none, none⟩ = 20 ∧
      confidenceOf 20 = (Confidence.High, 90)) := by
  refine ⟨fun d => ⟨rfl, rfl⟩, ?_, ?_, ?_, ⟨?_, ?_⟩, ⟨?_, ?_⟩⟩
  · intro p hp
    unfold confidenceOf
    rw [if_pos hp]
  · intro p h1 h2
    unfold confidenceOf
    rw [if_neg h1, if_pos h2]
  · intro p h1 h2
    have hA : ¬(p ≥ 80 ∨ p ≤ 20) := by push_neg; constructor <;> linarith
    have hB : ¬(p ≥ 65 ∨ p ≤ 35) := by push_neg; constructor <;> linarith
    unfold confidenceOf
    rw [if_neg hA, if_neg hB]
  · norm_num [calculate_rain_score, precip_score, weight_precipitation]
  · norm_num [confidenceOf]
  · norm_num [calculate_rain_score, humidity_score, weight_humidity]
  · norm_num [confidenceOf]

/-- Witness for C2: a probability in each confidence band. -/
theorem claim_C2_witness :
    confidenceOf 90 = (Confidence.High, 90) ∧
    confidenceOf 70 = (Confidence.Medium, 70) ∧
    confidenceOf 50 = (Confidence.Low, 50) :=
  ⟨claim_C2.2.1 90 (Or.inl (by norm_num)),
   claim_C2.2.2.1 70 (by push_neg; norm_num) (Or.inl (by norm_num)),
   claim_C2.2.2.2.1 50 (by norm_num) (by norm_num)⟩

/-- Counterexample for claim C4 as stated: with no indicators present the total
is 0 and will_rain is false, but the confidence branch at probability 0 yields
High(90) (since 0 ≤ 20), not Low(50). -/
theorem claim_C4_counterexample :
    calculate_rain_score ⟨none, none, none, none, none⟩ = 0 ∧
    confidenceOf (calculate_rain_score ⟨none, none, none, none, none⟩) =
      (Confidence.High, 90) ∧
    confidenceOf (calculate_rain_score ⟨none, none, none, none, none⟩) ≠
      (Confidence.Low, 50) := by
  have h0 : calculate_rain_score ⟨none, none, none, none, none⟩ = 0 := by
    norm_num [calculate_rain_score]
  refine ⟨h0, ?_, ?_⟩ <;> rw [h0] <;> norm_num [confidenceOf]

/-- Claim C4 (amended): if no indicators are present in the parameter map given
to the scorer, the total is 0 and will_rain is false (0 < 50), but the
confidence for probability 0 is High with confidence_percent 90, because 0 lies
in the p ≤ 20 High band. -/
theorem claim_C4_amended :
    calculate_rain_score ⟨none, none, none, none, none⟩ = 0 ∧
    ¬ (50 : ℚ) ≤ calculate_rain_score ⟨none, none, none, none, none⟩ ∧
    confidenceOf (calculate_rain_score ⟨none, none, none, none, none⟩) =
      (Confidence.High, 90) := by
  have h0 : calculate_rain_score ⟨none, none, none, none, none⟩ = 0 := by
    norm_num [calculate_rain_score]
  refine ⟨h0, ?_, ?_⟩ <;> rw [h0] <;> norm_num [confidenceOf]

/-- Counterexample for claim C6 as stated: `pm25_to_cigarettes` does not zero
out negative inputs; at pm25 = -22 it returns -1.0, not the sentinel 0. -/
theorem claim_C6_counterexample :
    ((-22 : ℚ) < 0) ∧
    pm25_to_cigarettes (some (-22)) = -1 ∧
    pm25_to_cigarettes (some (-22)) ≠ 0 := by
  refine ⟨by norm_num, ?_, ?_⟩ <;>
    norm_num [pm25_to_cigarettes, roundTo1, pyRound]

/-- Claim C6 (amended): for every negative pm25, `pm25_to_aqi` degrades to the
sentinel 0, but `pm25_to_cigarettes` applies the general formula
round(pm25/22, 1) to negatives (e.g. -1.0 at pm25 = -22) instead of the
sentinel 0. -/
theorem claim_C6_amended : ∀ x : ℚ, x < 0 →
    pm25_to_aqi (some x) = 0 ∧ pm25_to_cigarettes (some x) = roundTo1 (x / 22) := by
  intro x hx
  constructor
  · simp [pm25_to_aqi, if_pos hx]
  · have hne : x ≠ 0 := ne_of_lt hx
    simp [pm25_to_cigarettes, hne]

/-- Witness for the amended C6 at pm25 = -22. -/
theorem claim_C6_witness :
    ((-22 : ℚ) < 0) ∧
    pm25_to_aqi (some (-22)) = 0 ∧
    pm25_to_cigarettes (some (-22)) = roundTo1 ((-22) / 22) :=
  ⟨by norm_num, (claim_C6_amended (-22) (by norm_num)).1,
   (claim_C6_amended (-22) (by norm_num)).2⟩

/-- Counterexample for claim C7 as stated: with chance 28.5, humidity 85,
precipitation 0, cloud 80, pressure 999, the unclamped total is 49.975, which
rounds to a returned probability of exactly 50.0, yet will_rain is false; so a
returned probability of 50.0 does not imply will_rain. -/
theorem claim_C7_counterexample :
    (predict ⟨some (57/2), some 85, some 0, some 80, some 999⟩).probability = 50 ∧
    (predict ⟨some (57/2), some 85, some 0, some 80, some 999⟩).will_rain = false := by
  constructor <;>
    norm_num [predict, paramsOf, calculate_rain_score, humidity_score, precip_score,
      cloud_score, pressure_score, weight_chance_of_rain, weight_humidity,
      weight_precipitation, weight_cloud_cover, weight_pressure, roundTo1, pyRound,
      decide_eq_true_eq, decide_eq_false_iff_not]

/-- Claim C7 (amended): will_rain is true iff the unrounded total is at least
50; if will_rain is true then the returned probability (the total rounded to 1
decimal) is at least 50.0.  The converse fails: a total in [49.95, 50) rounds
to a returned probability of 50.0 with will_rain false. -/
theorem claim_C7_amended : ∀ d : DayData,
    ((predict d).will_rain = true ↔ 50 ≤ calculate_rain_score (paramsOf d)) ∧
    ((predict d).will_rain = true → 50 ≤ (predict d).probability) := by
  intro d
  have hiff : (predict d).will_rain = true ↔ 50 ≤ calculate_rain_score (paramsOf d) := by
    simp [predict, ge_iff_le]
  refine ⟨hiff, ?_⟩
  intro h
  have h50 := hiff.mp h
  show 50 ≤ roundTo1 (calculate_rain_score (paramsOf d))
  exact roundTo1_ge_fifty h50

/-- Witness for the amended C7 at a day with all indicators saturated, where
the total is 100 and will_rain is true. -/
theorem claim_C7_witness :
    (predict ⟨some 100, some 85, some 5, some 80, some 999⟩).will_rain = true ∧
    50 ≤ (predict ⟨some 100, some 85, some 5, some 80, some 999⟩).probability := by
  have hw : (predict ⟨some 100, some 85, some 5, some 80, some 999⟩).will_rain = true := by
    norm_num [predict, paramsOf, calculate_rain_score, humidity_score, precip_score,
      cloud_score, pressure_score, weight_chance_of_rain, weight_humidity,
      weight_precipitation, weight_cloud_cover, weight_pressure, decide_eq_true_eq]
  exact ⟨hw, (claim_C7_amended ⟨some 100, some 85, some 5, some 80, some 999⟩).2 hw⟩

/-- Claim C8: `pm25_to_cigarettes` returns 0 when pm25 is absent or exactly 0,
and otherwise returns pm25/22 rounded to 1 decimal; pm25 = 22 gives exactly
1.0. -/
theorem claim_C8 :
    pm25_to_cigarettes none = 0 ∧
    pm25_to_cigarettes (some 0) = 0 ∧
    (∀ x : ℚ, x ≠ 0 → pm25_to_cigarettes (some x) = roundTo1 (x / 22)) ∧
    pm25_to_cigarettes (some 22) = 1 := by
  refine ⟨rfl, by norm_num [pm25_to_cigarettes], ?_,
    by norm_num [pm25_to_cigarettes, roundTo1, pyRound]⟩
  intro x hx
  simp [pm25_to_cigarettes, hx]

/-- Witness for C8 at the nonzero input pm25 = 11. -/
theorem claim_C8_witness :
    pm25_to_cigarettes (some 11) = roundTo1 (11 / 22) :=
  claim_C8.2.2.1 11 (by norm_num)

/-- Claim C10: `predict` replaces every missing key by its fixed default
(daily_chance_of_rain 0, avghumidity 50, totalprecip_mm 0, cloud 50,
pressure_mb 1013) before scoring, so filling the defaults in explicitly does
not change the result; the completely empty input map yields will_rain false,
probability 11.0, confidence High, confidence_percent 90. -/
theorem claim_C10 :
    (∀ d : DayData, predict d = predict
      ⟨some (d.daily_chance_of_rain.getD 0), some (d.avghumidity.getD 50),
       some (d.totalprecip_mm.getD 0), some (d.cloud.getD 50),
       some (d.pressure_mb.getD 1013)⟩) ∧
    predict ⟨none, none, none, none, none⟩ =
      { will_rain := false, confidence := Confidence.High,
        probability := 11, confidence_percent := 90 } := by
  constructor
  · intro d
    rfl
  · have h11 : calculate_rain_score (paramsOf ⟨none, none, none, none, none⟩) = 11 := by
      norm_num [calculate_rain_score, paramsOf, humidity_score, precip_score,
        cloud_score, pressure_score, weight_chance_of_rain, weight_humidity,
        weight_precipitation, weight_cloud_cover, weight_pressure]
    show predict ⟨none, none, none, none, none⟩ = _
    unfold predict
    rw [h11]
    norm_num [confidenceOf, roundTo1, pyRound, RainPrediction.mk.injEq,
      decide_eq_false_iff_not]
